import Mathlib

/- Verification development for the multi-agent investment-analysis engine.
   Shallow embedding of the orchestration core: the file categorizer, the
   chunked summarizer guardrails, the keyword scoring heuristic, the question
   sub-pipeline, and the orchestrator failure handling. External collaborators
   (text inference, search, file parsing) are modelled as parameters: each
   theorem quantifies over the outcomes such a collaborator can produce. -/

/- ======================= String utilities ======================= -/

/-- Membership test: the first list is an initial segment of the second. -/
def hasPre : List Char → List Char → Bool
  | [], _ => true
  | _ :: _, [] => false
  | a :: as, b :: bs => a == b && hasPre as bs

/-- Occurrence test used to model the Python substring operator. -/
def hasSub (pat : List Char) : List Char → Bool
  | [] => pat.isEmpty
  | b :: bs => hasPre pat (b :: bs) || hasSub pat bs

/-- Models the Python expression pat in text on strings. -/
def containsSub (text pat : String) : Bool :=
  hasSub pat.data text.data

/-- ASCII lowercase of one character, as Python lower does on ASCII input. -/
def lowerChar (c : Char) : Char :=
  if 65 ≤ c.toNat ∧ c.toNat ≤ 90 then Char.ofNat (c.toNat + 32) else c

/-- ASCII lowercase of a string. -/
def lowerStr (s : String) : String :=
  String.mk (s.data.map lowerChar)

/-- Models the Python method endswith. -/
def strEnds (s suf : String) : Bool :=
  hasPre suf.data.reverse s.data.reverse

/- ======================= FileProcessor.categorize_file ======================= -/

/-- The five document categories of the system. -/
def categoriesList : List String :=
  ["pitch_deck", "data_room", "web_content", "interaction", "general"]

/-- Embedding of FileProcessor.categorize_file: keyword match on the lowered
filename first, then extension defaults, then the general fallback. The
content type argument is accepted and ignored exactly as in the source. -/
def categorize_file (filename : String) (_content_type : String) : String :=
  if ["pitch", "deck", "presentation", "slides"].any
      (fun k => containsSub (lowerStr filename) k) then
    "pitch_deck"
  else if ["financial", "traction", "metrics", "kpi", "revenue", "onepager",
           "one-pager"].any (fun k => containsSub (lowerStr filename) k) then
    "data_room"
  else if ["website", "landing", "blog", "faq", "web", "content"].any
          (fun k => containsSub (lowerStr filename) k) then
    "web_content"
  else if ["call", "recording", "transcript", "interview", "questionnaire",
           "feedback"].any (fun k => containsSub (lowerStr filename) k) then
    "interaction"
  else if [".pdf", ".pptx", ".key"].any (fun e => strEnds (lowerStr filename) e) then
    "pitch_deck"
  else if [".xlsx", ".xls", ".csv"].any (fun e => strEnds (lowerStr filename) e) then
    "data_room"
  else if [".txt", ".md", ".json"].any (fun e => strEnds (lowerStr filename) e) then
    "web_content"
  else
    "general"

/- ============ Orchestrator._process_and_categorize_files ============ -/

/-- A processed upload: extracted text plus the metadata the categorizer uses.
The extraction helper catches every failure internally and returns an error
string as content, so processing is total. -/
structure ProcessedFile where
  content : String
  filename : String
  content_type : String
deriving DecidableEq

/-- The five category buckets built by the orchestrator. -/
structure Categorized where
  pitch_deck : List ProcessedFile
  data_room : List ProcessedFile
  web_content : List ProcessedFile
  interaction : List ProcessedFile
  general : List ProcessedFile
deriving DecidableEq

def emptyCat : Categorized := ⟨[], [], [], [], []⟩

/-- One loop iteration of _process_and_categorize_files: append the file to
the bucket named by categorize_file, with general as the fallback for any
unknown name. -/
def insertCat (m : Categorized) (f : ProcessedFile) : Categorized :=
  if categorize_file f.filename f.content_type = "pitch_deck" then
    { m with pitch_deck := m.pitch_deck ++ [f] }
  else if categorize_file f.filename f.content_type = "data_room" then
    { m with data_room := m.data_room ++ [f] }
  else if categorize_file f.filename f.content_type = "web_content" then
    { m with web_content := m.web_content ++ [f] }
  else if categorize_file f.filename f.content_type = "interaction" then
    { m with interaction := m.interaction ++ [f] }
  else
    { m with general := m.general ++ [f] }

/-- Embedding of _process_and_categorize_files over already-extracted files. -/
def process_and_categorize (files : List ProcessedFile) : Categorized :=
  files.foldl insertCat emptyCat

/-- All bucket contents in bucket order. -/
def joinCat (m : Categorized) : List ProcessedFile :=
  m.pitch_deck ++ m.data_room ++ m.web_content ++ m.interaction ++ m.general

/- ======================= BaseAgent ======================= -/

def AGENT_TIMEOUT_SECONDS : ℕ := 600
def MAX_CONTENT_LENGTH : ℕ := 1000000
def MAX_CHUNKS : ℕ := 100
def MIN_CONTENT_LENGTH : ℕ := 10

/-- The observable outcome of one LangGraph workflow invocation: the fields of
the final state that BaseAgent._analyze_internal reads back. -/
structure WorkflowResult where
  final_summary : String
  error : Option String
  num_chunks : ℕ
  final_summary_length : ℕ
deriving DecidableEq

/-- The dictionary BaseAgent.analyze returns, restricted to the fields the
specification constrains. -/
structure AgentResponse where
  analysis : String
  confidence : ℚ
  error : Option String
deriving DecidableEq

/-- Embedding of BaseAgent._calculate_confidence on the metadata fields. -/
def calcConfidence (num_chunks final_summary_length : ℕ) : ℚ :=
  min (95 / 100)
    (max (1 / 10)
      (min 1 ((final_summary_length : ℚ) / 1000) * (6 / 10)
        + min 1 ((num_chunks : ℚ) / 5) * (4 / 10)))

/-- Embedding of BaseAgent._analyze_internal: the short-content guard, then
the workflow run (whose outcome is the parameter w), then the error and
missing-summary checks, then the confidence computation. -/
def analyzeInternal (_agentType content : String) (w : WorkflowResult) : AgentResponse :=
  if content.length < MIN_CONTENT_LENGTH then
    ⟨"Content too short to analyze (minimum " ++ Nat.repr MIN_CONTENT_LENGTH
      ++ " characters)", 0, some "content_too_short"⟩
  else
    match w.error with
    | some e => ⟨"Error during analysis: " ++ e, 0, some e⟩
    | none =>
      if w.final_summary = "" then
        ⟨"Analysis completed but no summary generated", 0, some "missing_final_summary"⟩
      else
        ⟨w.final_summary, calcConfidence w.num_chunks w.final_summary_length, none⟩

/-- How one call of BaseAgent.analyze can end: the inner run completes with a
workflow result, the 600 second guard fires, or the run raises. -/
inductive RunOutcome where
  | completes (w : WorkflowResult)
  | timeout
  | exn (msg : String)

/-- Embedding of BaseAgent.analyze: timeout and exceptions are converted into
well-formed responses; the function is total over every outcome, so no
exception reaches the caller. -/
def analyze (agentType content : String) (o : RunOutcome) : AgentResponse :=
  match o with
  | RunOutcome.completes w => analyzeInternal agentType content w
  | RunOutcome.timeout =>
      ⟨"Agent " ++ agentType ++ " exceeded " ++ Nat.repr AGENT_TIMEOUT_SECONDS
        ++ "s timeout", 0, some "timeout"⟩
  | RunOutcome.exn m => ⟨"Error during analysis: " ++ m, 0, some m⟩

/-- The state fields written by BaseAgent._chunk_text_node. -/
structure ChunkNodeOut where
  chunks : List String
  error : Option String
  chunks_truncated : Bool
deriving DecidableEq

/-- Embedding of BaseAgent._chunk_text_node over the splitter output. -/
def chunk_text_node (split_chunks : List String) : ChunkNodeOut :=
  if split_chunks.isEmpty then
    ⟨split_chunks, some "No text chunks produced", false⟩
  else if MAX_CHUNKS < split_chunks.length then
    ⟨split_chunks.take MAX_CHUNKS, none, true⟩
  else
    ⟨split_chunks, none, false⟩

/-- Embedding of BaseAgent._map_chunks_node: one summarizer call per chunk in
the chunk list, nothing else. -/
def map_chunks_node (summarize : String → String) (chunks : List String) : List String :=
  chunks.map summarize

/- =============== EnhancedAggregatorAgent scoring =============== -/

def teamSignalsPos : List (String × ℤ) :=
  [("founder", 5), ("experience", 5), ("track record", 5), ("technical", 5),
   ("domain expert", 10), ("previous exit", 10), ("strong team", 5),
   ("seasoned", 5), ("veteran", 5)]

def teamSignalsNeg : List (String × ℤ) :=
  [("first-time", -5), ("inexperienced", -10), ("solo founder", -5),
   ("no technical", -10), ("team risk", -5)]

def marketSignalsPos : List (String × ℤ) :=
  [("large market", 10), ("billion", 10), ("growing market", 5), ("tam", 5),
   ("market opportunity", 5), ("unmet need", 5), ("pain point", 5), ("urgent", 5)]

def marketSignalsNeg : List (String × ℤ) :=
  [("small market", -10), ("declining", -10), ("saturated", -10),
   ("competitive", -5), ("low barrier", -5)]

def productSignalsPos : List (String × ℤ) :=
  [("innovative", 5), ("proprietary", 10), ("patent", 10), ("unique", 5),
   ("differentiated", 5), ("scalable", 5), ("platform", 5),
   ("network effect", 10), ("moat", 10)]

def productSignalsNeg : List (String × ℤ) :=
  [("commodity", -10), ("no differentiation", -10), ("me too", -10),
   ("easily copied", -5), ("no moat", -5)]

def tractionSignalsPos : List (String × ℤ) :=
  [("revenue", 10), ("growth", 10), ("customers", 5), ("retention", 10),
   ("engagement", 5), ("viral", 10), ("testimonial", 5), ("case study", 5),
   ("mrr", 10), ("arr", 10)]

def tractionSignalsNeg : List (String × ℤ) :=
  [("no revenue", -15), ("no customers", -15), ("churn", -10),
   ("declining", -10), ("no traction", -15)]

def financialsSignalsPos : List (String × ℤ) :=
  [("profitable", 20), ("positive cash", 15), ("efficient", 10),
   ("low burn", 10), ("runway", 5), ("unit economics", 10)]

def financialsSignalsNeg : List (String × ℤ) :=
  [("high burn", -15), ("no runway", -20), ("cash crunch", -20),
   ("unsustainable", -15)]

def moatSignalsPos : List (String × ℤ) :=
  [("network effect", 20), ("data advantage", 15), ("patent", 15),
   ("proprietary", 10), ("switching cost", 10), ("brand", 5),
   ("regulatory barrier", 10), ("exclusive", 10)]

def moatSignalsNeg : List (String × ℤ) :=
  [("no moat", -20), ("easily replicated", -15), ("commodity", -15)]

/-- The final clamp min(100, max(0, score)) of every dimension score. -/
def clampScore (s : ℤ) : ℤ := min 100 (max 0 s)

/-- One signal loop of a score function: for each signal present in the text
add its points to the accumulator. -/
def applySignals (sig : List (String × ℤ)) (text : String) (score : ℤ) : ℤ :=
  match sig with
  | [] => score
  | p :: rest =>
      applySignals rest text (if containsSub text p.1 then score + p.2 else score)

/-- Total delta contributed by the signals present in the text. -/
def deltaSum (sig : List (String × ℤ)) (text : String) : ℤ :=
  ((sig.filter fun q => containsSub text q.1).map Prod.snd).sum

/-- Embedding of _calculate_team_score on the lowered analysis text. -/
def calculate_team_score (text : String) : ℤ :=
  clampScore (applySignals teamSignalsNeg text (applySignals teamSignalsPos text 40))

/-- Embedding of _calculate_market_score. -/
def calculate_market_score (text : String) : ℤ :=
  clampScore (applySignals marketSignalsNeg text (applySignals marketSignalsPos text 40))

/-- Embedding of _calculate_product_score. -/
def calculate_product_score (text : String) : ℤ :=
  clampScore (applySignals productSignalsNeg text (applySignals productSignalsPos text 40))

/-- Embedding of _calculate_traction_score, with its lower base of 30. -/
def calculate_traction_score (text : String) : ℤ :=
  clampScore (applySignals tractionSignalsNeg text (applySignals tractionSignalsPos text 30))

/-- Embedding of _calculate_financials_score. -/
def calculate_financials_score (text : String) : ℤ :=
  clampScore (applySignals financialsSignalsNeg text (applySignals financialsSignalsPos text 40))

/-- Embedding of _calculate_moat_score, with its base of 30. -/
def calculate_moat_score (text : String) : ℤ :=
  clampScore (applySignals moatSignalsNeg text (applySignals moatSignalsPos text 30))

/-- The fixed weights dictionary of _calculate_investment_scores. -/
def weightsList : List (String × ℚ) :=
  [("team", 25 / 100), ("market", 25 / 100), ("product", 20 / 100),
   ("traction", 20 / 100), ("financials", 5 / 100), ("moat", 5 / 100)]

/-- The weighted sum over the six dimensions in dictionary order. -/
def weightedSum (t m p tr fi mo : ℚ) : ℚ :=
  t * (25 / 100) + m * (25 / 100) + p * (20 / 100) + tr * (20 / 100)
    + fi * (5 / 100) + mo * (5 / 100)

/-- Rounding to two decimals, as the Python round call does on the exact
values arising here. -/
def roundTo2 (q : ℚ) : ℚ := ((round (q * 100) : ℤ) : ℚ) / 100

/-- Embedding of the recommendation thresholds. -/
def recommendationOf (ws : ℚ) : String :=
  if 75 ≤ ws then "Strong Buy"
  else if 60 ≤ ws then "Buy"
  else if 45 ≤ ws then "Hold"
  else "Pass"

/-- The scores dictionary returned by _calculate_investment_scores. -/
structure InvestmentScores where
  team : ℤ
  market : ℤ
  product : ℤ
  traction : ℤ
  financials : ℤ
  moat : ℤ
  overall_weighted : ℚ
  recommendation : String
  weights : List (String × ℚ)
deriving DecidableEq

/-- Embedding of _calculate_investment_scores: lower the synthesis text once,
compute the six keyword scores, the weighted overall and the label. -/
def calculate_investment_scores (analysis_text : String) : InvestmentScores :=
  ⟨calculate_team_score (lowerStr analysis_text),
   calculate_market_score (lowerStr analysis_text),
   calculate_product_score (lowerStr analysis_text),
   calculate_traction_score (lowerStr analysis_text),
   calculate_financials_score (lowerStr analysis_text),
   calculate_moat_score (lowerStr analysis_text),
   roundTo2 (weightedSum
     (calculate_team_score (lowerStr analysis_text))
     (calculate_market_score (lowerStr analysis_text))
     (calculate_product_score (lowerStr analysis_text))
     (calculate_traction_score (lowerStr analysis_text))
     (calculate_financials_score (lowerStr analysis_text))
     (calculate_moat_score (lowerStr analysis_text))),
   recommendationOf (weightedSum
     (calculate_team_score (lowerStr analysis_text))
     (calculate_market_score (lowerStr analysis_text))
     (calculate_product_score (lowerStr analysis_text))
     (calculate_traction_score (lowerStr analysis_text))
     (calculate_financials_score (lowerStr analysis_text))
     (calculate_moat_score (lowerStr analysis_text))),
   weightsList⟩

/- =============== FounderQuestionAgent sub-pipeline =============== -/

/-- Outcome of the one inference call a pipeline stage makes. -/
inductive StageOutcome where
  | ok (text : String)
  | fail (msg : String)

/-- The workflow state fields the question pipeline reads and writes. A stage
whose call failed leaves its own field unset, so later stages read it back as
the empty string. -/
structure QState where
  identified_gaps : Option String
  domain_questions : Option String
  alignment_questions : Option String
  risk_questions : Option String
  final_summary : String
  error : Option String
deriving DecidableEq

def initQState : QState := ⟨none, none, none, none, "", none⟩

/-- Embedding of _analyze_gaps_node. -/
def analyzeGapsNode (o : StageOutcome) (s : QState) : QState :=
  match o with
  | StageOutcome.ok t => { s with identified_gaps := some t }
  | StageOutcome.fail m => { s with error := some ("Error analyzing gaps: " ++ m) }

/-- Embedding of _generate_domain_questions_node. -/
def domainQuestionsNode (o : StageOutcome) (s : QState) : QState :=
  match o with
  | StageOutcome.ok t => { s with domain_questions := some t }
  | StageOutcome.fail m =>
      { s with error := some ("Error generating domain questions: " ++ m) }

/-- Embedding of _generate_alignment_questions_node. -/
def alignmentQuestionsNode (o : StageOutcome) (s : QState) : QState :=
  match o with
  | StageOutcome.ok t => { s with alignment_questions := some t }
  | StageOutcome.fail m =>
      { s with error := some ("Error generating alignment questions: " ++ m) }

/-- Embedding of _generate_risk_questions_node. -/
def riskQuestionsNode (o : StageOutcome) (s : QState) : QState :=
  match o with
  | StageOutcome.ok t => { s with risk_questions := some t }
  | StageOutcome.fail m =>
      { s with error := some ("Error generating risk questions: " ++ m) }

/-- Embedding of _compile_questions_node. -/
def compileQuestionsNode (o : StageOutcome) (s : QState) : QState :=
  match o with
  | StageOutcome.ok t => { s with final_summary := t }
  | StageOutcome.fail m =>
      { s with error := some ("Error compiling questions: " ++ m) }

/-- The five stages in their fixed workflow order; every stage runs whether or
not an earlier one recorded an error. -/
def runQuestionWorkflow (o1 o2 o3 o4 o5 : StageOutcome) : QState :=
  compileQuestionsNode o5
    (riskQuestionsNode o4
      (alignmentQuestionsNode o3
        (domainQuestionsNode o2
          (analyzeGapsNode o1 initQState))))

/-- The dictionary generate_questions_from_analyses returns: on any recorded
error the gaps and categories keys are absent. -/
structure QuestionsResult where
  questions : String
  gaps_identified : Option String
  categories : Option (List (String × String))
deriving DecidableEq

/-- Embedding of FounderQuestionAgent.generate_questions_from_analyses. -/
def generate_questions_from_analyses (o1 o2 o3 o4 o5 : StageOutcome) : QuestionsResult :=
  match (runQuestionWorkflow o1 o2 o3 o4 o5).error with
  | some e => ⟨"Error generating questions: " ++ e, none, none⟩
  | none =>
    ⟨(runQuestionWorkflow o1 o2 o3 o4 o5).final_summary,
     some ((runQuestionWorkflow o1 o2 o3 o4 o5).identified_gaps.getD ""),
     some [("domain", (runQuestionWorkflow o1 o2 o3 o4 o5).domain_questions.getD ""),
           ("alignment", (runQuestionWorkflow o1 o2 o3 o4 o5).alignment_questions.getD ""),
           ("risk", (runQuestionWorkflow o1 o2 o3 o4 o5).risk_questions.getD "")]⟩

/-- The question fields EnhancedAggregatorAgent.aggregate_analyses copies into
the final report, with the dictionary-get defaults of the source. -/
structure ReportQuestionFields where
  founder_questions : String
  question_categories : List (String × String)
  identified_gaps : String
deriving DecidableEq

/-- Embedding of the question-filling step of aggregate_analyses. -/
def aggregateReportQuestions (o1 o2 o3 o4 o5 : StageOutcome) : ReportQuestionFields :=
  ⟨(generate_questions_from_analyses o1 o2 o3 o4 o5).questions,
   (generate_questions_from_analyses o1 o2 o3 o4 o5).categories.getD [],
   (generate_questions_from_analyses o1 o2 o3 o4 o5).gaps_identified.getD ""⟩

/- =============== EnhancedMultiAgentOrchestrator =============== -/

def MAX_FILES_PER_REQUEST : ℕ := 10
def ANALYSIS_TIMEOUT_SECONDS : ℕ := 600

/-- One per-category analysis entry in the agent_analyses list. -/
structure AgentResult where
  agent : String
  analysis : String
  confidence : ℚ
  meta_error : Bool
deriving DecidableEq

/-- Embedding of the result loop after asyncio gather with return_exceptions:
an exception is converted to an error-tagged entry, everything else is kept
unchanged at its position. -/
def formatAgentResults (rs : List (Except String AgentResult)) : List AgentResult :=
  rs.map fun r =>
    match r with
    | Except.ok a => a
    | Except.error e => ⟨"error", "Agent error: " ++ e, 0, true⟩

/-- The final_summary block of the orchestrator response. -/
structure FinalSummary where
  analysis : String
  confidence : ℚ
  error : Option String
deriving DecidableEq

/-- The orchestrator response restricted to the keys the specification
constrains; file_processing_error stands for the error key of the
file_processing_summary block. -/
structure OrchResponse where
  final_summary : FinalSummary
  investment_scores : List (String × ℚ)
  founder_questions : String
  question_categories : List (String × String)
  identified_gaps : String
  agent_analyses : List AgentResult
  file_processing_error : Option String
  web_search_performed : Bool
  metadata_total_files : ℕ
  metadata_status : String
deriving DecidableEq

/-- The response built in the asyncio TimeoutError handler of analyze_files. -/
def timeoutResponse (nFiles : ℕ) : OrchResponse :=
  ⟨⟨"Analysis exceeded " ++ Nat.repr ANALYSIS_TIMEOUT_SECONDS ++ "s timeout",
     0, some "timeout"⟩,
   [], "", [], "", [], some "timeout", false, nFiles, "timeout"⟩

/-- The response built in the generic exception handler of analyze_files. -/
def errorResponse (nFiles : ℕ) (msg : String) : OrchResponse :=
  ⟨⟨"Analysis failed: " ++ msg, 0, some msg⟩,
   [], "", [], "", [], some msg, false, nFiles, "error"⟩

/-- How the guarded internal analysis can end. -/
inductive OrchOutcome where
  | ok (r : OrchResponse)
  | timeout
  | exn (msg : String)

/-- Embedding of EnhancedMultiAgentOrchestrator.analyze_files: the file-count
guard raises before the try block; inside it, timeout and exceptions are
converted into uniformly shaped responses. -/
def analyze_files (nFiles : ℕ) (o : OrchOutcome) : Except String OrchResponse :=
  if MAX_FILES_PER_REQUEST < nFiles then
    Except.error ("Too many files uploaded. Maximum: "
      ++ Nat.repr MAX_FILES_PER_REQUEST ++ ", Received: " ++ Nat.repr nFiles)
  else
    Except.ok (match o with
      | OrchOutcome.ok r => r
      | OrchOutcome.timeout => timeoutResponse nFiles
      | OrchOutcome.exn m => errorResponse nFiles m)

/- ======================= Sample values for witnesses ======================= -/

def sampleWorkflowOk : WorkflowResult :=
  ⟨"a final summary of the analysis", none, 3, 31⟩

def sampleWorkflowErr : WorkflowResult :=
  ⟨"", some "boom", 0, 0⟩

def sampleAgentResult : AgentResult :=
  ⟨"pitch_deck", "a pitch analysis", 1 / 2, false⟩

/- ======================= Helper lemmas ======================= -/

/-- The signal loop adds exactly the delta of the signals present. -/
theorem applySignals_delta (sig : List (String × ℤ)) (text : String) :
    ∀ s : ℤ, applySignals sig text s = s + deltaSum sig text := by
  induction sig with
  | nil => intro s; simp [applySignals, deltaSum]
  | cons p rest ih =>
      intro s
      cases h : containsSub text p.1 <;>
        simp [applySignals, deltaSum, h, List.filter_cons, ih] <;> omega

/-- Delta of concatenated signal tables. -/
theorem deltaSum_append (a b : List (String × ℤ)) (text : String) :
    deltaSum (a ++ b) text = deltaSum a text + deltaSum b text := by
  simp [deltaSum, List.filter_append]

/-- Positive loop followed by negative loop equals base plus the combined
delta, clamped. -/
theorem score_formula (base : ℤ) (pos neg : List (String × ℤ)) (text : String) :
    clampScore (applySignals neg text (applySignals pos text base))
      = clampScore (base + deltaSum (pos ++ neg) text) := by
  rw [applySignals_delta, applySignals_delta, deltaSum_append]
  congr 1
  ring

/-- The confidence heuristic always lands in the closed unit interval. -/
theorem calcConfidence_bounds (n L : ℕ) :
    0 ≤ calcConfidence n L ∧ calcConfidence n L ≤ 1 := by
  unfold calcConfidence
  constructor
  · exact le_min (by norm_num) (le_trans (by norm_num) (le_max_left _ _))
  · exact le_trans (min_le_left _ _) (by norm_num)

/-- The confidence of an internal analysis is either the zero of a failure
branch or the heuristic value of the success branch. -/
theorem analyzeInternal_confidence (agentType content : String) (w : WorkflowResult) :
    (analyzeInternal agentType content w).confidence = 0 ∨
    (analyzeInternal agentType content w).confidence
      = calcConfidence w.num_chunks w.final_summary_length := by
  by_cases h1 : content.length < MIN_CONTENT_LENGTH
  · left; simp [analyzeInternal, h1]
  · rcases hw : w.error with _ | e
    · by_cases h2 : w.final_summary = ""
      · left; simp [analyzeInternal, h1, hw, h2]
      · right; simp [analyzeInternal, h1, hw, h2]
    · left; simp [analyzeInternal, h1, hw]

/-- The two-decimal rounding is the identity on every weighted sum of integer
dimension scores. -/
theorem roundTo2_weightedSum_int (t m p tr fi mo : ℤ) :
    roundTo2 (weightedSum t m p tr fi mo) = weightedSum t m p tr fi mo := by
  have h : weightedSum (t : ℚ) m p tr fi mo * 100
      = ((25 * t + 25 * m + 20 * p + 20 * tr + 5 * fi + 5 * mo : ℤ) : ℚ) := by
    unfold weightedSum; push_cast; ring
  have h2 : weightedSum (t : ℚ) m p tr fi mo
      = ((25 * t + 25 * m + 20 * p + 20 * tr + 5 * fi + 5 * mo : ℤ) : ℚ) / 100 := by
    rw [← h]; ring
  unfold roundTo2
  rw [h, round_intCast, ← h2]

/-- Inserting one file adds exactly one occurrence to the joined buckets. -/
theorem count_insertCat (g f : ProcessedFile) (m : Categorized) :
    List.count g (joinCat (insertCat m f))
      = List.count g (joinCat m) + List.count g [f] := by
  unfold insertCat
  split_ifs <;> simp [joinCat, List.count_append, List.count_cons] <;> omega

/-- Folding the categorizer over a file list preserves occurrence counts. -/
theorem count_process (files : List ProcessedFile) :
    ∀ (m : Categorized) (g : ProcessedFile),
      List.count g (joinCat (List.foldl insertCat m files))
        = List.count g (joinCat m) + List.count g files := by
  induction files with
  | nil => intro m g; simp
  | cons f fs ih =>
      intro m g
      rw [List.foldl_cons, ih, count_insertCat]
      simp [List.count_cons]
      omega

/- ======================= Claim theorems ======================= -/

/-- Claim C1, counterexample: the claim quantifies over every list of uploaded
files, but for eleven files analyze_files raises a ValueError from the
file-count guard placed before the try block, so a raw exception does reach
the caller. -/
theorem orchestrator_file_limit_raises :
    analyze_files 11 OrchOutcome.timeout
      = Except.error "Too many files uploaded. Maximum: 10, Received: 11" := by
  rfl

/-- Claim C1, amended: for every list of at most MAX_FILES_PER_REQUEST files,
every failure path inside the guarded analysis (timeout or exception) yields
the same response shape as success, with confidence 0, empty scores and an
error field, and no exception reaches the caller; beyond that limit the
file-count guard raises. -/
theorem orchestrator_uniform_failure_shape (nFiles : ℕ) (m : String)
    (r : OrchResponse) (h : nFiles ≤ MAX_FILES_PER_REQUEST) :
    analyze_files nFiles OrchOutcome.timeout = Except.ok (timeoutResponse nFiles) ∧
    analyze_files nFiles (OrchOutcome.exn m) = Except.ok (errorResponse nFiles m) ∧
    analyze_files nFiles (OrchOutcome.ok r) = Except.ok r ∧
    (timeoutResponse nFiles).final_summary.confidence = 0 ∧
    (timeoutResponse nFiles).investment_scores = [] ∧
    (timeoutResponse nFiles).final_summary.error = some "timeout" ∧
    (timeoutResponse nFiles).founder_questions = "" ∧
    (timeoutResponse nFiles).agent_analyses = [] ∧
    (errorResponse nFiles m).final_summary.confidence = 0 ∧
    (errorResponse nFiles m).investment_scores = [] ∧
    (errorResponse nFiles m).final_summary.error = some m := by
  have hn : ¬ MAX_FILES_PER_REQUEST < nFiles := by omega
  refine ⟨?_, ?_, ?_, rfl, rfl, rfl, rfl, rfl, rfl, rfl, rfl⟩ <;>
    simp [analyze_files, hn]

/-- Claim C1, witness at one file and a timeout. -/
theorem orchestrator_uniform_failure_shape_witness :
    analyze_files 1 OrchOutcome.timeout = Except.ok (timeoutResponse 1) ∧
    (timeoutResponse 1).final_summary.confidence = 0 ∧
    (timeoutResponse 1).investment_scores = [] := by
  have h := orchestrator_uniform_failure_shape 1 "boom" (timeoutResponse 1) (by decide)
  exact ⟨h.1, h.2.2.2.1, h.2.2.2.2.1⟩

/-- Claim C2: the weights sum exactly to one; the overall score stored by
_calculate_investment_scores equals the weighted sum of the six dimension
scores; any dimension scores in the range zero to one hundred give an overall
in that range; and the recommendation label is characterized exactly by the
fixed thresholds, with 80 mapping to Strong Buy, 50 to Hold and 30 to Pass. -/
theorem investment_scoring_weights_and_thresholds
    (t m p tr fi mo : ℚ)
    (ht0 : 0 ≤ t) (ht1 : t ≤ 100) (hm0 : 0 ≤ m) (hm1 : m ≤ 100)
    (hp0 : 0 ≤ p) (hp1 : p ≤ 100) (hr0 : 0 ≤ tr) (hr1 : tr ≤ 100)
    (hf0 : 0 ≤ fi) (hf1 : fi ≤ 100) (ho0 : 0 ≤ mo) (ho1 : mo ≤ 100) :
    (weightsList.map Prod.snd).sum = 1 ∧
    0 ≤ weightedSum t m p tr fi mo ∧ weightedSum t m p tr fi mo ≤ 100 ∧
    (∀ s : String,
      (calculate_investment_scores s).overall_weighted
        = weightedSum ((calculate_investment_scores s).team : ℚ)
            ((calculate_investment_scores s).market : ℚ)
            ((calculate_investment_scores s).product : ℚ)
            ((calculate_investment_scores s).traction : ℚ)
            ((calculate_investment_scores s).financials : ℚ)
            ((calculate_investment_scores s).moat : ℚ) ∧
      (calculate_investment_scores s).weights = weightsList ∧
      (calculate_investment_scores s).recommendation
        = recommendationOf ((calculate_investment_scores s).overall_weighted)) ∧
    (∀ x : ℚ,
      ((recommendationOf x = "Strong Buy") ↔ 75 ≤ x) ∧
      ((recommendationOf x = "Buy") ↔ 60 ≤ x ∧ x < 75) ∧
      ((recommendationOf x = "Hold") ↔ 45 ≤ x ∧ x < 60) ∧
      ((recommendationOf x = "Pass") ↔ x < 45)) ∧
    recommendationOf 80 = "Strong Buy" ∧
    recommendationOf 50 = "Hold" ∧
    recommendationOf 30 = "Pass" := by
  refine ⟨by norm_num [weightsList], ?_, ?_, ?_, ?_,
    by norm_num [recommendationOf], by norm_num [recommendationOf],
    by norm_num [recommendationOf]⟩
  · unfold weightedSum; linarith
  · unfold weightedSum; linarith
  · intro s
    have hov := roundTo2_weightedSum_int (calculate_team_score (lowerStr s))
      (calculate_market_score (lowerStr s)) (calculate_product_score (lowerStr s))
      (calculate_traction_score (lowerStr s)) (calculate_financials_score (lowerStr s))
      (calculate_moat_score (lowerStr s))
    exact ⟨hov, rfl, congrArg recommendationOf hov.symm⟩
  · intro x
    unfold recommendationOf
    split_ifs with ha hb hc
    · exact ⟨iff_of_true rfl ha,
        iff_of_false (by decide) (by rintro ⟨_, hlt⟩; linarith),
        iff_of_false (by decide) (by rintro ⟨_, hlt⟩; linarith),
        iff_of_false (by decide) (by intro hx; linarith)⟩
    · exact ⟨iff_of_false (by decide) ha,
        iff_of_true rfl ⟨hb, not_le.mp ha⟩,
        iff_of_false (by decide) (by rintro ⟨_, hlt⟩; linarith),
        iff_of_false (by decide) (by intro hx; linarith)⟩
    · exact ⟨iff_of_false (by decide) ha,
        iff_of_false (by decide) (by rintro ⟨h60, _⟩; exact hb h60),
        iff_of_true rfl ⟨hc, not_le.mp hb⟩,
        iff_of_false (by decide) (by intro hx; linarith)⟩
    · exact ⟨iff_of_false (by decide) ha,
        iff_of_false (by decide) (by rintro ⟨h60, _⟩; exact hb h60),
        iff_of_false (by decide) (by rintro ⟨h45, _⟩; exact hc h45),
        iff_of_true rfl (not_le.mp hc)⟩

/-- Claim C2, witness at all six dimension scores equal to eighty. -/
theorem investment_scoring_witness :
    (weightsList.map Prod.snd).sum = 1 ∧
    recommendationOf 80 = "Strong Buy" ∧
    0 ≤ weightedSum 80 80 80 80 80 80 := by
  have h := investment_scoring_weights_and_thresholds 80 80 80 80 80 80
    (by norm_num) (by norm_num) (by norm_num) (by norm_num)
    (by norm_num) (by norm_num) (by norm_num) (by norm_num)
    (by norm_num) (by norm_num) (by norm_num) (by norm_num)
  exact ⟨h.1, h.2.2.2.2.2.1, h.2.1⟩

/-- Claim C3: when the concurrently gathered category runs come back, every
exception becomes an error-tagged entry with confidence 0, and every other
result is returned unchanged at its own position, so one failed category never
cancels or degrades another. -/
theorem agent_exception_isolation (rs : List (Except String AgentResult)) (i : ℕ) :
    (formatAgentResults rs).length = rs.length ∧
    (∀ a : AgentResult, rs[i]? = some (Except.ok a) →
      (formatAgentResults rs)[i]? = some a) ∧
    (∀ e : String, rs[i]? = some (Except.error e) →
      (formatAgentResults rs)[i]? = some ⟨"error", "Agent error: " ++ e, 0, true⟩) := by
  refine ⟨by simp [formatAgentResults], ?_, ?_⟩
  · intro a h
    simp [formatAgentResults, List.getElem?_map, h]
  · intro e h
    simp [formatAgentResults, List.getElem?_map, h]

/-- Claim C3, witness at a two-run batch whose second run raised. -/
theorem agent_exception_isolation_witness :
    (formatAgentResults [Except.ok sampleAgentResult, Except.error "boom"]).length = 2 ∧
    (formatAgentResults [Except.ok sampleAgentResult, Except.error "boom"])[0]?
      = some sampleAgentResult ∧
    (formatAgentResults [Except.ok sampleAgentResult, Except.error "boom"])[1]?
      = some ⟨"error", "Agent error: " ++ "boom", 0, true⟩ := by
  have h0 := agent_exception_isolation [Except.ok sampleAgentResult, Except.error "boom"] 0
  have h1 := agent_exception_isolation [Except.ok sampleAgentResult, Except.error "boom"] 1
  exact ⟨h0.1, h0.2.1 sampleAgentResult rfl, h1.2.2 "boom" rfl⟩

/-- Claim C4: on a workflow timeout, analyze returns a result tagged timeout
with confidence 0, and on any raised exception a result carrying that message
with confidence 0; the embedding is a total function over every run outcome,
so no exception escapes to the caller. -/
theorem agent_timeout_returns_result (agentType content m : String) :
    (analyze agentType content RunOutcome.timeout).error = some "timeout" ∧
    (analyze agentType content RunOutcome.timeout).confidence = 0 ∧
    (analyze agentType content (RunOutcome.exn m)).error = some m ∧
    (analyze agentType content (RunOutcome.exn m)).confidence = 0 :=
  ⟨rfl, rfl, rfl, rfl⟩

/-- Claim C5: each dimension score is the fixed base (40 for team, market,
product and financials, 30 for traction and moat, all between 30 and 40) plus
the deltas of the signal phrases present in the lowered narrative, clamped to
the range 0 to 100; the strong team signal carries +5 in the team table, the
large market signal +10 in the market table, and the concrete narratives
evaluate to base plus delta. -/
theorem keyword_signal_scoring (narrative : String) (s : ℤ) :
    calculate_team_score (lowerStr narrative)
      = clampScore (40 + deltaSum (teamSignalsPos ++ teamSignalsNeg) (lowerStr narrative)) ∧
    calculate_market_score (lowerStr narrative)
      = clampScore (40 + deltaSum (marketSignalsPos ++ marketSignalsNeg) (lowerStr narrative)) ∧
    calculate_product_score (lowerStr narrative)
      = clampScore (40 + deltaSum (productSignalsPos ++ productSignalsNeg) (lowerStr narrative)) ∧
    calculate_traction_score (lowerStr narrative)
      = clampScore (30 + deltaSum (tractionSignalsPos ++ tractionSignalsNeg) (lowerStr narrative)) ∧
    calculate_financials_score (lowerStr narrative)
      = clampScore (40 + deltaSum (financialsSignalsPos ++ financialsSignalsNeg) (lowerStr narrative)) ∧
    calculate_moat_score (lowerStr narrative)
      = clampScore (30 + deltaSum (moatSignalsPos ++ moatSignalsNeg) (lowerStr narrative)) ∧
    0 ≤ clampScore s ∧ clampScore s ≤ 100 ∧
    ("strong team", (5 : ℤ)) ∈ teamSignalsPos ∧
    ("large market", (10 : ℤ)) ∈ marketSignalsPos ∧
    calculate_team_score (lowerStr "Strong Team") = 40 + 5 ∧
    calculate_market_score (lowerStr "Large Market") = 40 + 10 ∧
    (calculate_investment_scores narrative).team = calculate_team_score (lowerStr narrative) ∧
    (calculate_investment_scores narrative).market = calculate_market_score (lowerStr narrative) := by
  refine ⟨score_formula 40 _ _ _, score_formula 40 _ _ _, score_formula 40 _ _ _,
    score_formula 30 _ _ _, score_formula 40 _ _ _, score_formula 30 _ _ _,
    ?_, ?_, by decide, by decide, by decide, by decide, rfl, rfl⟩
  · unfold clampScore
    exact le_min (by norm_num) (le_max_left _ _)
  · unfold clampScore
    exact min_le_left _ _

/-- Claim C6: categorization partitions the processed documents: the joined
buckets are a permutation of the input list, the bucket sizes sum to the
number of documents, and every document is sent to one of the five category
names with general as the fallback. -/
theorem categorization_partitions_documents (files : List ProcessedFile) :
    List.Perm (joinCat (process_and_categorize files)) files ∧
    (process_and_categorize files).pitch_deck.length
      + (process_and_categorize files).data_room.length
      + (process_and_categorize files).web_content.length
      + (process_and_categorize files).interaction.length
      + (process_and_categorize files).general.length = files.length ∧
    ∀ f : ProcessedFile,
      categorize_file f.filename f.content_type ∈ categoriesList := by
  have hperm : List.Perm (joinCat (process_and_categorize files)) files := by
    rw [List.perm_iff_count]
    intro g
    have hc := count_process files emptyCat g
    simpa [process_and_categorize, joinCat, emptyCat] using hc
  refine ⟨hperm, ?_, ?_⟩
  · have hlen := hperm.length_eq
    simp [joinCat] at hlen
    omega
  · intro f
    unfold categorize_file
    split_ifs <;> decide

/-- Claim C7, counterexample: with the gaps stage failing and every later
stage succeeding, the compile stage still runs and produces its guide, but the
final report receives an error message instead of the compiled questions and
its categories are emptied, contradicting the claim that only a compile
failure empties the question output. -/
theorem question_pipeline_nonfinal_failure_counterexample :
    (runQuestionWorkflow (StageOutcome.fail "llm down") (StageOutcome.ok "D")
      (StageOutcome.ok "A") (StageOutcome.ok "R") (StageOutcome.ok "GUIDE")).final_summary
      = "GUIDE" ∧
    (aggregateReportQuestions (StageOutcome.fail "llm down") (StageOutcome.ok "D")
      (StageOutcome.ok "A") (StageOutcome.ok "R") (StageOutcome.ok "GUIDE")).founder_questions
      = "Error generating questions: Error analyzing gaps: llm down" ∧
    (aggregateReportQuestions (StageOutcome.fail "llm down") (StageOutcome.ok "D")
      (StageOutcome.ok "A") (StageOutcome.ok "R") (StageOutcome.ok "GUIDE")).founder_questions
      ≠ "GUIDE" ∧
    (aggregateReportQuestions (StageOutcome.fail "llm down") (StageOutcome.ok "D")
      (StageOutcome.ok "A") (StageOutcome.ok "R") (StageOutcome.ok "GUIDE")).question_categories
      = [] ∧
    (aggregateReportQuestions (StageOutcome.fail "llm down") (StageOutcome.ok "D")
      (StageOutcome.ok "A") (StageOutcome.ok "R") (StageOutcome.ok "GUIDE")).identified_gaps
      = "" := by
  decide

/-- Claim C7, amended: every stage failure is caught locally, the failed stage
contributes nothing and all remaining stages still run; but a failure of any
stage, not only compile, leaves the run marked errored, so the final report
gets an error message in place of the compiled questions and empty categories
and gaps; the sub-pipeline itself is total, so no failure aborts the overall
analysis. -/
theorem question_pipeline_stage_failure (o1 o2 o3 o4 o5 : StageOutcome)
    (m c : String) :
    (runQuestionWorkflow (StageOutcome.fail m) o2 o3 o4 (StageOutcome.ok c)).final_summary
      = c ∧
    (runQuestionWorkflow (StageOutcome.fail m) o2 o3 o4 o5).identified_gaps = none ∧
    (∀ e : String, (runQuestionWorkflow o1 o2 o3 o4 o5).error = some e →
      aggregateReportQuestions o1 o2 o3 o4 o5
        = ⟨"Error generating questions: " ++ e, [], ""⟩) ∧
    ((runQuestionWorkflow o1 o2 o3 o4 o5).error = none →
      (aggregateReportQuestions o1 o2 o3 o4 o5).founder_questions
        = (runQuestionWorkflow o1 o2 o3 o4 o5).final_summary) := by
  refine ⟨rfl, ?_, ?_, ?_⟩
  · unfold runQuestionWorkflow
    cases o2 <;> cases o3 <;> cases o4 <;> cases o5 <;> rfl
  · intro e h
    simp [aggregateReportQuestions, generate_questions_from_analyses, h]
  · intro h
    simp [aggregateReportQuestions, generate_questions_from_analyses, h]

/-- Claim C7, witness: an all-success run hands the compiled guide to the
report, and a run with a failed gaps stage hands over the error shape. -/
theorem question_pipeline_stage_failure_witness :
    (aggregateReportQuestions (StageOutcome.ok "G") (StageOutcome.ok "D")
      (StageOutcome.ok "A") (StageOutcome.ok "R") (StageOutcome.ok "C")).founder_questions
      = (runQuestionWorkflow (StageOutcome.ok "G") (StageOutcome.ok "D")
          (StageOutcome.ok "A") (StageOutcome.ok "R") (StageOutcome.ok "C")).final_summary ∧
    aggregateReportQuestions (StageOutcome.fail "x") (StageOutcome.ok "D")
      (StageOutcome.ok "A") (StageOutcome.ok "R") (StageOutcome.ok "C")
      = ⟨"Error generating questions: " ++ "Error analyzing gaps: x", [], ""⟩ := by
  have h1 := question_pipeline_stage_failure (StageOutcome.ok "G") (StageOutcome.ok "D")
    (StageOutcome.ok "A") (StageOutcome.ok "R") (StageOutcome.ok "C") "x" "C"
  have h2 := question_pipeline_stage_failure (StageOutcome.fail "x") (StageOutcome.ok "D")
    (StageOutcome.ok "A") (StageOutcome.ok "R") (StageOutcome.ok "C") "x" "C"
  exact ⟨h1.2.2.2 rfl, h2.2.2.1 "Error analyzing gaps: x" rfl⟩

/-- Claim C8: the success-path confidence is exactly the clamped combination
of the volume and chunk scores, that heuristic always lies in the unit
interval, and every response of analyze, on success or on any failure path,
has confidence in the unit interval. -/
theorem confidence_formula_and_bounds (n L : ℕ) (agentType content : String)
    (o : RunOutcome) :
    calcConfidence n L
      = min (95 / 100 : ℚ) (max (1 / 10)
          ((6 / 10) * min 1 ((L : ℚ) / 1000) + (4 / 10) * min 1 ((n : ℚ) / 5))) ∧
    0 ≤ calcConfidence n L ∧ calcConfidence n L ≤ 1 ∧
    0 ≤ (analyze agentType content o).confidence ∧
    (analyze agentType content o).confidence ≤ 1 ∧
    (∀ w : WorkflowResult, w.error = none → w.final_summary ≠ "" →
      MIN_CONTENT_LENGTH ≤ content.length →
      (analyzeInternal agentType content w).confidence
        = calcConfidence w.num_chunks w.final_summary_length) := by
  have hb : ∀ a b : ℕ, 0 ≤ calcConfidence a b ∧ calcConfidence a b ≤ 1 :=
    fun a b => calcConfidence_bounds a b
  have hconf : 0 ≤ (analyze agentType content o).confidence ∧
      (analyze agentType content o).confidence ≤ 1 := by
    cases o with
    | timeout => constructor <;> norm_num [analyze]
    | exn msg => constructor <;> norm_num [analyze]
    | completes w =>
        have heq : (analyze agentType content (RunOutcome.completes w)).confidence
            = (analyzeInternal agentType content w).confidence := rfl
        rcases analyzeInternal_confidence agentType content w with h | h
        · rw [heq, h]; constructor <;> norm_num
        · rw [heq, h]; exact hb _ _
  refine ⟨?_, (hb n L).1, (hb n L).2, hconf.1, hconf.2, ?_⟩
  · unfold calcConfidence
    congr 1
    congr 1
    ring
  · intro w he hs hlen
    unfold analyzeInternal
    rw [if_neg (by omega)]
    simp only [he]
    rw [if_neg hs]

/-- Claim C8, witness at a successful run with three chunks and a thirty-one
character summary. -/
theorem confidence_formula_witness :
    0 ≤ (analyze "PitchDeckAgent" "0123456789" (RunOutcome.completes sampleWorkflowOk)).confidence ∧
    (analyzeInternal "PitchDeckAgent" "0123456789" sampleWorkflowOk).confidence
      = calcConfidence 3 31 := by
  have h := confidence_formula_and_bounds 3 31 "PitchDeckAgent" "0123456789"
    (RunOutcome.completes sampleWorkflowOk)
  exact ⟨h.2.2.2.1, h.2.2.2.2.2 sampleWorkflowOk rfl (by decide) (by decide)⟩

/-- Claim C9: the chunk node never hands more than MAX_CHUNKS chunks to the
map phase; when the splitter yields more, the list is cut to the first
MAX_CHUNKS, the truncation flag is set, and the map phase summarizes exactly
the kept chunks, so the excess is never summarized. -/
theorem chunk_truncation_guardrail (split_chunks : List String)
    (summarize : String → String) :
    (chunk_text_node split_chunks).chunks.length ≤ MAX_CHUNKS ∧
    (map_chunks_node summarize (chunk_text_node split_chunks).chunks).length ≤ MAX_CHUNKS ∧
    (MAX_CHUNKS < split_chunks.length →
      (chunk_text_node split_chunks).chunks = split_chunks.take MAX_CHUNKS ∧
      (chunk_text_node split_chunks).chunks_truncated = true ∧
      map_chunks_node summarize (chunk_text_node split_chunks).chunks
        = (split_chunks.take MAX_CHUNKS).map summarize) := by
  have hlen : (chunk_text_node split_chunks).chunks.length ≤ MAX_CHUNKS := by
    unfold chunk_text_node
    split_ifs with h1 h2
    · rw [List.isEmpty_iff] at h1
      simp [h1]
    · show (split_chunks.take MAX_CHUNKS).length ≤ MAX_CHUNKS
      simp [List.length_take]
    · show split_chunks.length ≤ MAX_CHUNKS
      omega
  refine ⟨hlen, by simpa [map_chunks_node] using hlen, ?_⟩
  intro h
  have hne : ¬ split_chunks.isEmpty := by
    rw [List.isEmpty_iff]
    intro hnil
    rw [hnil] at h
    simp [MAX_CHUNKS] at h
  unfold chunk_text_node
  rw [if_neg hne, if_pos h]
  exact ⟨rfl, rfl, rfl⟩

/-- Claim C9, witness at a splitter output of one hundred one chunks. -/
theorem chunk_truncation_guardrail_witness :
    (chunk_text_node (List.replicate 101 "x")).chunks.length ≤ MAX_CHUNKS ∧
    (chunk_text_node (List.replicate 101 "x")).chunks_truncated = true := by
  have h := chunk_truncation_guardrail (List.replicate 101 "x") id
  exact ⟨h.1, (h.2.2 (by decide)).2.1⟩

/-- Claim C10: content shorter than MIN_CONTENT_LENGTH makes the internal
analysis return at once with the content_too_short tag and confidence 0, and
the result does not depend on the workflow at all, so no chunking and no
inference call can influence it. -/
theorem short_content_early_return (agentType content : String)
    (w w2 : WorkflowResult) (h : content.length < MIN_CONTENT_LENGTH) :
    analyzeInternal agentType content w = analyzeInternal agentType content w2 ∧
    (analyzeInternal agentType content w).error = some "content_too_short" ∧
    (analyzeInternal agentType content w).confidence = 0 := by
  unfold analyzeInternal
  rw [if_pos h, if_pos h]
  exact ⟨rfl, rfl, rfl⟩

/-- Claim C10, witness at a five character input. -/
theorem short_content_early_return_witness :
    (analyzeInternal "PitchDeckAgent" "abcde" sampleWorkflowOk).error
      = some "content_too_short" ∧
    (analyzeInternal "PitchDeckAgent" "abcde" sampleWorkflowOk).confidence = 0 ∧
    analyzeInternal "PitchDeckAgent" "abcde" sampleWorkflowOk
      = analyzeInternal "PitchDeckAgent" "abcde" sampleWorkflowErr := by
  have h := short_content_early_return "PitchDeckAgent" "abcde"
    sampleWorkflowOk sampleWorkflowErr (by decide)
  exact ⟨h.2.1, h.2.2, h.1⟩
